import Mathlib

/-!
Verification of the scoring, status-classification, alerting and aggregation
core of the Earth 3.0 board-dashboard app (`src/app.py`), shallowly embedded
over `ℚ`.  Numeric values in the source are floats; every value in the fixed
dataset and every intermediate in the audited computations is an exact
decimal, so rationals model them faithfully.  `round(…, 1)` in the source is
pandas/numpy rounding, which rounds half to even; `rhe` below embeds that.
-/

/-- Round a rational to the nearest integer, rounding halves to the even
neighbour (numpy/pandas rounding, used by `Series.round`). -/
def rhe (q : ℚ) : ℤ :=
  if q - ⌊q⌋ < 1/2 then ⌊q⌋
  else if 1/2 < q - ⌊q⌋ then ⌈q⌉
  else if 2 ∣ ⌊q⌋ then ⌊q⌋ else ⌊q⌋ + 1

/-- Embedding of `x.round(1)` of the source: round to one decimal place, halves to even. -/
def round1 (q : ℚ) : ℚ := (rhe (10 * q) : ℚ) / 10

/-- One row of the fixed dataset in `get_fake_orgs` (`src/app.py` lines 40-53):
name, country, coordinates and the five metric columns. -/
structure Org where
  org : String
  country : String
  lat : ℚ
  lon : ℚ
  finance : ℚ
  aiGovernance : ℚ
  climate : ℚ
  equity : ℚ
  sustainability : ℚ
deriving DecidableEq

/-- The five metric columns `metric_cols` of `get_fake_orgs`, in column order. -/
def metricsList (o : Org) : List ℚ :=
  [o.finance, o.aiGovernance, o.climate, o.equity, o.sustainability]

/-- The row computation `df[metric_cols].mean(axis=1).round(1)` applied to one row
(`src/app.py` line 57): the row mean of the metric columns, rounded to one
decimal.  Pure function of the row. -/
def earth3Index (o : Org) : ℚ := round1 ((metricsList o).sum / (metricsList o).length)

def unilever : Org :=
  ⟨"Unilever PLC", "United Kingdom", 51.5074, -0.1278, 78, 85, 62, 71, 77⟩

def acmeMotors : Org :=
  ⟨"ACME Motors", "USA", 38.9072, -77.0369, 72, 65, 58, 68, 60⟩

def nipponAuto : Org :=
  ⟨"Nippon Auto", "Japan", 35.6762, 139.6503, 82, 88, 74, 79, 85⟩

def greenEnergy : Org :=
  ⟨"GreenEnergy Ltd", "India", 28.6139, 77.2090, 65, 59, 50, 62, 55⟩

def continentalFoods : Org :=
  ⟨"Continental Foods", "Germany", 52.5200, 13.4050, 83, 80, 78, 75, 82⟩

def globalBank : Org :=
  ⟨"GlobalBank", "USA", 40.7128, -74.0060, 75, 55, 68, 66, 70⟩

/-- The fixed six-row catalog `ORGS_DF` built by `get_fake_orgs`. -/
def ORGS_DF : List Org :=
  [unilever, acmeMotors, nipponAuto, greenEnergy, continentalFoods, globalBank]

/-- The function `status_color` inside `build_map` (`src/app.py` lines 116-121): red is
the critical status, orange warning, green healthy. -/
def status_color (val : ℚ) : String :=
  if val < 65 then "red"
  else if val < 70 then "orange"
  else "green"

/-- The count `num_green = (ORGS_DF["Earth3_Index"] >= 70).sum()` (`src/app.py` line 71),
generalised over the catalog. -/
def num_green (cat : List Org) : ℕ :=
  cat.countP (fun o => decide (70 ≤ earth3Index o))

/-- The count `num_red = (ORGS_DF["Earth3_Index"] < 65).sum()` (`src/app.py` line 72),
generalised over the catalog. -/
def num_red (cat : List Org) : ℕ :=
  cat.countP (fun o => decide (earth3Index o < 65))

/-- The KPI `global_index = ORGS_DF["Earth3_Index"].mean().round(1)`
(`src/app.py` line 70), generalised over the catalog: the mean of the
already-rounded per-row indices, rounded again to one decimal. -/
def global_index (cat : List Org) : ℚ :=
  round1 ((cat.map earth3Index).sum / cat.length)

/-- One alert row `(org, rule description, observed value)`.  The source
stores the observation as an f-string such as `"Index 58.2"`; the embedding
keeps its label and numeric payload separately. -/
structure Alert where
  entity : String
  rule : String
  detailLabel : String
  detailValue : ℚ
deriving DecidableEq

/-- The alert-building loop of `src/app.py` lines 213-220: iterate the rows
in catalog order, appending to the accumulated list one row for each of the
three threshold rules that fires. -/
def alertsLoop : List Org → List Alert → List Alert
  | [], acc => acc
  | r :: rest, acc =>
      let acc1 := if earth3Index r < 65 then
        acc ++ [⟨r.org, "Low overall readiness", "Index", earth3Index r⟩] else acc
      let acc2 := if r.aiGovernance < 60 then
        acc1 ++ [⟨r.org, "AI governance weak", "AI Gov", r.aiGovernance⟩] else acc1
      let acc3 := if r.climate < 60 then
        acc2 ++ [⟨r.org, "Climate resilience low", "Climate", r.climate⟩] else acc2
      alertsLoop rest acc3

/-- The value `alerts` of `src/app.py`: the loop started from the empty list. -/
def alerts (cat : List Org) : List Alert := alertsLoop cat []

/-- Spec-side per-entity rule evaluation (spec section 4.3): the three
independent rules checked in their fixed order, each contributing one row
when it fires. -/
def specEntityAlerts (o : Org) : List Alert :=
  (if earth3Index o < 65 then
    [⟨o.org, "Low overall readiness", "Index", earth3Index o⟩] else []) ++
  (if o.aiGovernance < 60 then
    [⟨o.org, "AI governance weak", "AI Gov", o.aiGovernance⟩] else []) ++
  (if o.climate < 60 then
    [⟨o.org, "Climate resilience low", "Climate", o.climate⟩] else [])

/-- Spec-side `evaluate_alerts` (spec section 6): concatenation of the
per-entity rule results in catalog order. -/
def evaluate_alerts : List Org → List Alert
  | [] => []
  | o :: rest => specEntityAlerts o ++ evaluate_alerts rest

/-- Entity lookup `ORGS_DF[ORGS_DF["org"]==org_choice].iloc[0]`
(`src/app.py` line 148): filter the catalog by name and take the first row.
`.iloc[0]` on an empty selection raises `IndexError`; the embedding returns
`none` for that error outcome. -/
def sel (cat : List Org) (choice : String) : Option Org :=
  (cat.filter fun o => o.org == choice).head?

/-- The rendered state of the alerts panel (`src/app.py` lines 222-226):
either the explicit all-clear message, or the list of alert rows. -/
inductive AlertsView where
  | allClear : String → AlertsView
  | items : List Alert → AlertsView
deriving DecidableEq

/-- The panel rendering `if not alerts: st.success(…) else: …` (`src/app.py` lines 222-226). -/
def alertsPanel (cat : List Org) : AlertsView :=
  if alerts cat = [] then
    AlertsView.allClear "No critical alerts detected across monitored entities."
  else AlertsView.items (alerts cat)

/-- A raw dataset record as `pd.DataFrame` sees it: each of the five metric
keys may be absent from the row dict, in which case the frame cell is NaN. -/
structure RawRecord where
  finance? : Option ℚ
  aiGovernance? : Option ℚ
  climate? : Option ℚ
  equity? : Option ℚ
  sustainability? : Option ℚ
deriving DecidableEq

/-- The metric values actually present in a raw record, in column order. -/
def presentMetrics (r : RawRecord) : List ℚ :=
  [r.finance?, r.aiGovernance?, r.climate?, r.equity?, r.sustainability?].filterMap id

/-- The row computation `df[metric_cols].mean(axis=1).round(1)` on a row that may have NaN cells:
pandas `mean` skips NaN by default (`skipna=True`), so the mean is taken over
the present values only, and is itself NaN (here `none`) only when every
cell is missing. -/
def loadIndex (r : RawRecord) : Option ℚ :=
  if presentMetrics r = [] then none
  else some (round1 ((presentMetrics r).sum / (presentMetrics r).length))

/-- A test entity whose metric mean 0.15 rounds up to index 0.2. -/
def gapOrgA : Org := ⟨"GapOrgA", "Testland", 0, 0, 0.15, 0.15, 0.15, 0.15, 0.15⟩

/-- A test entity whose metric mean 0.75 rounds up to index 0.8. -/
def gapOrgB : Org := ⟨"GapOrgB", "Testland", 0, 0, 0.75, 0.75, 0.75, 0.75, 0.75⟩

/-- A six-entity catalog on which the double rounding inside `global_index`
is observable. -/
def gapCatalog : List Org := [gapOrgA, gapOrgA, gapOrgA, gapOrgB, gapOrgB, gapOrgB]

/-- Comparison value: a single rounding of the mean of all raw metric values
of the catalog (the thirty raw values when the catalog has six entities).
This is not what the source computes; `global_index` is stated against it. -/
def rawMetricMean (cat : List Org) : ℚ :=
  round1 ((cat.map (fun o => (metricsList o).sum)).sum / (5 * cat.length))

/-! ### Arithmetic facts about half-to-even rounding -/

theorem rhe_intCast (n : ℤ) : rhe ((n : ℚ)) = n := by
  unfold rhe
  rw [Int.floor_intCast]
  norm_num

theorem rhe_add_half (n : ℤ) : rhe ((n : ℚ) + 1/2) = if 2 ∣ n then n else n + 1 := by
  have hf : ⌊(n : ℚ) + 1/2⌋ = n := by
    rw [Int.floor_int_add]
    norm_num
  unfold rhe
  rw [hf]
  norm_num

theorem round1_eq_of_tenths (q : ℚ) (n : ℤ) (h : 10 * q = (n : ℚ)) :
    round1 q = (n : ℚ) / 10 := by
  unfold round1
  rw [h, rhe_intCast]

theorem round1_eq_of_half (q : ℚ) (n : ℤ) (h : 10 * q = (n : ℚ) + 1/2) :
    round1 q = ((if 2 ∣ n then n else n + 1 : ℤ) : ℚ) / 10 := by
  unfold round1
  rw [h, rhe_add_half]

theorem rhe_floor_or_ceil (q : ℚ) : rhe q = ⌊q⌋ ∨ rhe q = ⌈q⌉ := by
  unfold rhe
  split_ifs with h1 h2 h3
  · exact Or.inl rfl
  · exact Or.inr rfl
  · exact Or.inl rfl
  · right
    have hq : q - ⌊q⌋ = 1/2 := le_antisymm (not_lt.mp h2) (not_lt.mp h1)
    have hlow : (⌊q⌋ : ℚ) < q := by linarith
    have hup : ⌈q⌉ ≤ ⌊q⌋ + 1 := by
      apply Int.ceil_le.mpr
      push_cast
      linarith
    have hdn : ⌊q⌋ < ⌈q⌉ := Int.lt_ceil.mpr hlow
    omega

theorem rhe_nonneg {q : ℚ} (h : 0 ≤ q) : 0 ≤ rhe q := by
  have hfl : (0 : ℤ) ≤ ⌊q⌋ := Int.le_floor.mpr (by exact_mod_cast h)
  rcases rhe_floor_or_ceil q with he | he <;> rw [he]
  · exact hfl
  · exact le_trans hfl (Int.floor_le_ceil q)

theorem rhe_le_of_le {q : ℚ} {m : ℤ} (h : q ≤ (m : ℚ)) : rhe q ≤ m := by
  rcases rhe_floor_or_ceil q with he | he <;> rw [he]
  · exact_mod_cast (Int.floor_le q).trans h
  · exact Int.ceil_le.mpr h

/-! ### The per-row index as a five-way arithmetic mean -/

theorem earth3Index_mean (o : Org) :
    earth3Index o =
      round1 ((o.finance + o.aiGovernance + o.climate + o.equity + o.sustainability) / 5) := by
  unfold earth3Index metricsList
  congr 1
  simp
  ring

theorem earth3Index_unilever : earth3Index unilever = 74.6 := by
  rw [earth3Index_mean, round1_eq_of_tenths _ 746 (by norm_num [unilever])]
  norm_num

theorem earth3Index_acmeMotors : earth3Index acmeMotors = 64.6 := by
  rw [earth3Index_mean, round1_eq_of_tenths _ 646 (by norm_num [acmeMotors])]
  norm_num

theorem earth3Index_nipponAuto : earth3Index nipponAuto = 81.6 := by
  rw [earth3Index_mean, round1_eq_of_tenths _ 816 (by norm_num [nipponAuto])]
  norm_num

theorem earth3Index_greenEnergy : earth3Index greenEnergy = 58.2 := by
  rw [earth3Index_mean, round1_eq_of_tenths _ 582 (by norm_num [greenEnergy])]
  norm_num

theorem earth3Index_continentalFoods : earth3Index continentalFoods = 79.6 := by
  rw [earth3Index_mean, round1_eq_of_tenths _ 796 (by norm_num [continentalFoods])]
  norm_num

theorem earth3Index_globalBank : earth3Index globalBank = 66.8 := by
  rw [earth3Index_mean, round1_eq_of_tenths _ 668 (by norm_num [globalBank])]
  norm_num

/-- C1: for every entity carrying the five metric values Finance,
AI Governance, Climate, Equity, Sustainability, the computed index equals
the arithmetic mean of the five values rounded to one decimal place.  The
embedding is a pure total function of the row, and the statement quantifies
over all rational metric values, so out-of-range values are accepted and
averaged as-is rather than rejected. -/
theorem compute_index_is_rounded_mean (o : Org) :
    earth3Index o =
      round1 ((o.finance + o.aiGovernance + o.climate + o.equity + o.sustainability) / 5) :=
  earth3Index_mean o

/-- C2: on every numeric index value the status classifier returns exactly
one of the three statuses (red encodes critical, orange warning, green
healthy), and the three statuses partition the number line as
`(-inf,65)`, `[65,70)`, `[70,+inf)`. -/
theorem classify_status_partition (idx : ℚ) :
    (status_color idx = "red" ↔ idx < 65) ∧
    (status_color idx = "orange" ↔ 65 ≤ idx ∧ idx < 70) ∧
    (status_color idx = "green" ↔ 70 ≤ idx) ∧
    (status_color idx = "red" ∨ status_color idx = "orange" ∨ status_color idx = "green") := by
  unfold status_color
  split_ifs with h1 h2
  · exact ⟨iff_of_true rfl h1,
      iff_of_false (by simp) (by rintro ⟨h65, _⟩; linarith),
      iff_of_false (by simp) (by intro h70; linarith),
      Or.inl rfl⟩
  · exact ⟨iff_of_false (by simp) h1,
      iff_of_true rfl ⟨not_lt.mp h1, h2⟩,
      iff_of_false (by simp) (by intro h70; linarith),
      Or.inr (Or.inl rfl)⟩
  · exact ⟨iff_of_false (by simp) h1,
      iff_of_false (by simp) (by rintro ⟨_, h70⟩; exact h2 h70),
      iff_of_true rfl (not_lt.mp h2),
      Or.inr (Or.inr rfl)⟩

/-- C2 witness: the partition theorem applied at the concrete index value
58.2, which falls in the critical range. -/
theorem classify_status_partition_witness : status_color 58.2 = "red" :=
  (classify_status_partition 58.2).1.mpr (by norm_num)

theorem countP_disjoint_le {α : Type} (p q : α → Bool) (h : ∀ x, ¬(p x = true ∧ q x = true)) :
    ∀ l : List α, l.countP p + l.countP q ≤ l.length := by
  intro l
  induction l with
  | nil => simp
  | cons a t ih =>
    rw [List.countP_cons, List.countP_cons, List.length_cons]
    have ha := h a
    by_cases hp : p a = true <;> by_cases hq : q a = true <;> simp_all <;> omega

theorem countP_disjoint_lt {α : Type} (p q : α → Bool) (h : ∀ x, ¬(p x = true ∧ q x = true))
    {l : List α} {x : α} (hx : x ∈ l) (hp : p x = false) (hq : q x = false) :
    l.countP p + l.countP q < l.length := by
  induction l with
  | nil => cases hx
  | cons a t ih =>
    rw [List.countP_cons, List.countP_cons, List.length_cons]
    rcases List.mem_cons.mp hx with rfl | hmem
    · have h1 := countP_disjoint_le p q h t
      simp [hp, hq]
      omega
    · have h2 := ih hmem
      have ha := h a
      by_cases hpa : p a = true <;> by_cases hqa : q a = true <;> simp_all <;> omega

/-- C4: the healthy count (index at least 70) plus the at-risk count
(index below 65) never exceeds the number of entities, and the inequality
is strict as soon as one entity has its index in the gap `[65,70)`; the two
counts are separate counts with exactly those threshold comparisons. -/
theorem healthy_atrisk_count_invariant (cat : List Org) :
    num_green cat + num_red cat ≤ cat.length ∧
    ((∃ o ∈ cat, 65 ≤ earth3Index o ∧ earth3Index o < 70) →
      num_green cat + num_red cat < cat.length) := by
  have hdis : ∀ o : Org,
      ¬(decide (70 ≤ earth3Index o) = true ∧ decide (earth3Index o < 65) = true) := by
    intro o ho
    rcases ho with ⟨h1, h2⟩
    simp only [decide_eq_true_eq] at h1 h2
    linarith
  constructor
  · exact countP_disjoint_le _ _ hdis cat
  · rintro ⟨o, ho, h65, h70⟩
    refine countP_disjoint_lt _ _ hdis ho ?_ ?_
    · simp only [decide_eq_false_iff_not, not_le]
      linarith
    · simp only [decide_eq_false_iff_not, not_lt]
      linarith

/-- C4 witness: on the fixed six-row catalog GlobalBank has index 66.8 in
the gap, so the sum of the two counts is strictly below six. -/
theorem healthy_atrisk_count_invariant_witness :
    num_green ORGS_DF + num_red ORGS_DF < ORGS_DF.length :=
  (healthy_atrisk_count_invariant ORGS_DF).2
    ⟨globalBank, by simp [ORGS_DF],
      by rw [earth3Index_globalBank]; constructor <;> norm_num⟩

theorem alertsLoop_acc (cat : List Org) :
    ∀ acc : List Alert, alertsLoop cat acc = acc ++ evaluate_alerts cat := by
  induction cat with
  | nil => intro acc; simp [alertsLoop, evaluate_alerts]
  | cons o rest ih =>
    intro acc
    simp only [alertsLoop, ih]
    conv_rhs => rw [evaluate_alerts]
    unfold specEntityAlerts
    by_cases h1 : earth3Index o < 65 <;> by_cases h2 : o.aiGovernance < 60 <;>
      by_cases h3 : o.climate < 60 <;> simp [h1, h2, h3]

/-- C3: the alert loop produces exactly the per-entity rule evaluation in
catalog order with the fixed rule order (low readiness, AI governance,
climate) inside each entity, with no reordering and no deduplication, and
each entity contributes at most three rows (each rule zero or one). -/
theorem alerts_catalog_rule_order (cat : List Org) :
    alerts cat = evaluate_alerts cat ∧ ∀ o : Org, (specEntityAlerts o).length ≤ 3 := by
  constructor
  · rw [alerts, alertsLoop_acc]
    simp
  · intro o
    unfold specEntityAlerts
    by_cases h1 : earth3Index o < 65 <;> by_cases h2 : o.aiGovernance < 60 <;>
      by_cases h3 : o.climate < 60 <;> simp [h1, h2, h3]

/-! ### Per-entity alert evaluations on the fixed catalog -/

theorem specEntityAlerts_unilever : specEntityAlerts unilever = [] := by
  have h1 : ¬ earth3Index unilever < 65 := by rw [earth3Index_unilever]; norm_num
  have h2 : ¬ unilever.aiGovernance < 60 := by norm_num [unilever]
  have h3 : ¬ unilever.climate < 60 := by norm_num [unilever]
  simp [specEntityAlerts, h1, h2, h3]

theorem specEntityAlerts_acmeMotors :
    specEntityAlerts acmeMotors =
      [⟨"ACME Motors", "Low overall readiness", "Index", 64.6⟩,
       ⟨"ACME Motors", "Climate resilience low", "Climate", 58⟩] := by
  have h1 : earth3Index acmeMotors < 65 := by rw [earth3Index_acmeMotors]; norm_num
  have h2 : ¬ acmeMotors.aiGovernance < 60 := by norm_num [acmeMotors]
  have h3 : acmeMotors.climate < 60 := by norm_num [acmeMotors]
  rw [specEntityAlerts, if_pos h1, if_neg h2, if_pos h3, earth3Index_acmeMotors]
  rfl

theorem specEntityAlerts_nipponAuto : specEntityAlerts nipponAuto = [] := by
  have h1 : ¬ earth3Index nipponAuto < 65 := by rw [earth3Index_nipponAuto]; norm_num
  have h2 : ¬ nipponAuto.aiGovernance < 60 := by norm_num [nipponAuto]
  have h3 : ¬ nipponAuto.climate < 60 := by norm_num [nipponAuto]
  simp [specEntityAlerts, h1, h2, h3]

theorem specEntityAlerts_greenEnergy :
    specEntityAlerts greenEnergy =
      [⟨"GreenEnergy Ltd", "Low overall readiness", "Index", 58.2⟩,
       ⟨"GreenEnergy Ltd", "AI governance weak", "AI Gov", 59⟩,
       ⟨"GreenEnergy Ltd", "Climate resilience low", "Climate", 50⟩] := by
  have h1 : earth3Index greenEnergy < 65 := by rw [earth3Index_greenEnergy]; norm_num
  have h2 : greenEnergy.aiGovernance < 60 := by norm_num [greenEnergy]
  have h3 : greenEnergy.climate < 60 := by norm_num [greenEnergy]
  rw [specEntityAlerts, if_pos h1, if_pos h2, if_pos h3, earth3Index_greenEnergy]
  rfl

theorem specEntityAlerts_continentalFoods : specEntityAlerts continentalFoods = [] := by
  have h1 : ¬ earth3Index continentalFoods < 65 := by rw [earth3Index_continentalFoods]; norm_num
  have h2 : ¬ continentalFoods.aiGovernance < 60 := by norm_num [continentalFoods]
  have h3 : ¬ continentalFoods.climate < 60 := by norm_num [continentalFoods]
  simp [specEntityAlerts, h1, h2, h3]

theorem specEntityAlerts_globalBank :
    specEntityAlerts globalBank =
      [⟨"GlobalBank", "AI governance weak", "AI Gov", 55⟩] := by
  have h1 : ¬ earth3Index globalBank < 65 := by rw [earth3Index_globalBank]; norm_num
  have h2 : globalBank.aiGovernance < 60 := by norm_num [globalBank]
  have h3 : ¬ globalBank.climate < 60 := by norm_num [globalBank]
  rw [specEntityAlerts, if_neg h1, if_pos h2, if_neg h3]
  rfl

theorem alerts_ORGS :
    alerts ORGS_DF =
      [⟨"ACME Motors", "Low overall readiness", "Index", 64.6⟩,
       ⟨"ACME Motors", "Climate resilience low", "Climate", 58⟩,
       ⟨"GreenEnergy Ltd", "Low overall readiness", "Index", 58.2⟩,
       ⟨"GreenEnergy Ltd", "AI governance weak", "AI Gov", 59⟩,
       ⟨"GreenEnergy Ltd", "Climate resilience low", "Climate", 50⟩,
       ⟨"GlobalBank", "AI governance weak", "AI Gov", 55⟩] := by
  rw [alerts, alertsLoop_acc]
  simp [ORGS_DF, evaluate_alerts, specEntityAlerts_unilever, specEntityAlerts_acmeMotors,
    specEntityAlerts_nipponAuto, specEntityAlerts_greenEnergy, specEntityAlerts_continentalFoods,
    specEntityAlerts_globalBank]

/-- C5: worked example — the GreenEnergy Ltd entity (metrics 65, 59, 50,
62, 55) has index exactly 58.2, its status is red (critical), and on the
fixed catalog the alert engine emits exactly its three alerts, in the fixed
rule order: low overall readiness, AI governance weak, climate resilience
low. -/
theorem greenEnergy_worked_example :
    earth3Index greenEnergy = 58.2 ∧
    status_color (earth3Index greenEnergy) = "red" ∧
    (alerts ORGS_DF).filter (fun a => a.entity == "GreenEnergy Ltd") =
      [⟨"GreenEnergy Ltd", "Low overall readiness", "Index", 58.2⟩,
       ⟨"GreenEnergy Ltd", "AI governance weak", "AI Gov", 59⟩,
       ⟨"GreenEnergy Ltd", "Climate resilience low", "Climate", 50⟩] := by
  refine ⟨earth3Index_greenEnergy, ?_, ?_⟩
  · rw [earth3Index_greenEnergy, status_color, if_pos (by norm_num : (58.2:ℚ) < 65)]
  · rw [alerts_ORGS]
    simp

/-- C6 counterexample: a record missing its Finance metric is not refused
at catalog load — the pandas row mean skips the missing cell, so the record
loads with an index of 56.5 computed from the four present values, instead
of failing. -/
theorem missing_metric_record_loads :
    loadIndex ⟨none, some 59, some 50, some 62, some 55⟩ = some 56.5 ∧
    loadIndex ⟨none, some 59, some 50, some 62, some 55⟩ ≠ none := by
  have hp : presentMetrics ⟨none, some 59, some 50, some 62, some 55⟩ = [59, 50, 62, 55] := rfl
  have hv : loadIndex ⟨none, some 59, some 50, some 62, some 55⟩ = some 56.5 := by
    rw [loadIndex, hp, if_neg (List.cons_ne_nil _ _)]
    have hq : round1 (List.sum [(59:ℚ), 50, 62, 55] / (List.length [(59:ℚ), 50, 62, 55] : ℚ)) = 56.5 := by
      rw [round1_eq_of_tenths _ 565 (by norm_num)]
      norm_num
    rw [hq]
  exact ⟨hv, by rw [hv]; simp⟩

/-- C6 amended: catalog load does not refuse a record with a missing metric
field and substitutes no default value either; instead the index is the
one-decimal rounding of the mean over the metric values that are present
(pandas skips the missing cells), so a record missing one field gets an
index computed over four values, while a complete record gets the five-value
mean. -/
theorem load_mean_skips_missing (f a c e s : ℚ) :
    loadIndex ⟨some f, some a, some c, some e, some s⟩ =
      some (round1 ((f + a + c + e + s) / 5)) ∧
    loadIndex ⟨none, some a, some c, some e, some s⟩ =
      some (round1 ((a + c + e + s) / 4)) := by
  constructor
  · have hp : presentMetrics ⟨some f, some a, some c, some e, some s⟩ = [f, a, c, e, s] := rfl
    rw [loadIndex, hp, if_neg (List.cons_ne_nil _ _)]
    congr 2
    simp
    ring
  · have hp : presentMetrics ⟨none, some a, some c, some e, some s⟩ = [a, c, e, s] := rfl
    rw [loadIndex, hp, if_neg (List.cons_ne_nil _ _)]
    congr 2
    simp
    ring

/-- C7: looking a name up in the catalog returns `none` (the embedded image
of the `IndexError` raised by `.iloc[0]` on an empty selection) whenever no
entity carries that name — never an arbitrary entity — and any row it does
return is a catalog entity carrying exactly the requested name; when the
name is present, a row with that name is returned. -/
theorem sel_lookup (cat : List Org) (choice : String) :
    ((∀ o ∈ cat, o.org ≠ choice) → sel cat choice = none) ∧
    (∀ o : Org, sel cat choice = some o → o ∈ cat ∧ o.org = choice) ∧
    ((∃ o ∈ cat, o.org = choice) → ∃ o : Org, sel cat choice = some o ∧ o.org = choice) := by
  induction cat with
  | nil =>
    refine ⟨fun _ => rfl, ?_, ?_⟩
    · intro o h
      simp [sel] at h
    · rintro ⟨o, ho, _⟩
      cases ho
  | cons a t ih =>
    by_cases hpa : a.org = choice
    · have hsel : sel (a :: t) choice = some a := by
        simp [sel, List.filter_cons, hpa]
      refine ⟨?_, ?_, ?_⟩
      · intro h
        exact absurd hpa (h a (List.mem_cons_self a t))
      · intro o hsome
        rw [hsel] at hsome
        cases hsome
        exact ⟨List.mem_cons_self a t, hpa⟩
      · intro _
        exact ⟨a, hsel, hpa⟩
    · have hsel : sel (a :: t) choice = sel t choice := by
        simp [sel, List.filter_cons, hpa]
      refine ⟨?_, ?_, ?_⟩
      · intro h
        rw [hsel]
        exact ih.1 (fun o ho => h o (List.mem_cons_of_mem a ho))
      · intro o hsome
        rw [hsel] at hsome
        obtain ⟨hmem, horg⟩ := ih.2.1 o hsome
        exact ⟨List.mem_cons_of_mem a hmem, horg⟩
      · rintro ⟨o, ho, horg⟩
        rcases List.mem_cons.mp ho with rfl | hmem
        · exact absurd horg hpa
        · obtain ⟨w, hw, hworg⟩ := ih.2.2 ⟨o, hmem, horg⟩
          exact ⟨w, by rw [hsel]; exact hw, hworg⟩

/-- C7 witness: the lookup theorem applied to the fixed catalog and a name
absent from it. -/
theorem sel_lookup_witness : sel ORGS_DF "No Such Org" = none :=
  (sel_lookup ORGS_DF "No Such Org").1 (by
    intro o ho
    fin_cases ho <;>
      simp [unilever, acmeMotors, nipponAuto, greenEnergy, continentalFoods, globalBank])

/-- C8: the rendered alerts panel is the explicit all-clear message exactly
when the produced alert sequence is empty; when the sequence is non-empty
the panel carries the alert rows themselves, and the two panel states are
distinguishable. -/
theorem alertsPanel_allclear_iff (cat : List Org) :
    ((∃ m : String, alertsPanel cat = AlertsView.allClear m) ↔ alerts cat = []) ∧
    (alerts cat ≠ [] → alertsPanel cat = AlertsView.items (alerts cat)) ∧
    (∀ (m : String) (rows : List Alert), AlertsView.allClear m ≠ AlertsView.items rows) := by
  refine ⟨?_, ?_, fun m rows h => by cases h⟩
  · constructor
    · rintro ⟨m, hm⟩
      by_contra hne
      rw [alertsPanel, if_neg hne] at hm
      cases hm
    · intro he
      exact ⟨_, by rw [alertsPanel, if_pos he]⟩
  · intro hne
    rw [alertsPanel, if_neg hne]

/-- C8 witness: the fixed catalog produces a non-empty alert sequence, so
the panel theorem yields the has-alerts state there. -/
theorem alertsPanel_allclear_iff_witness :
    alertsPanel ORGS_DF = AlertsView.items (alerts ORGS_DF) :=
  (alertsPanel_allclear_iff ORGS_DF).2.1 (by rw [alerts_ORGS]; simp)

/-- C9: whenever all five metric values lie in the closed interval
`[0, 100]`, the computed index also lies in `[0, 100]`. -/
theorem compute_index_bounds (o : Org)
    (h : ∀ m ∈ metricsList o, 0 ≤ m ∧ m ≤ 100) :
    0 ≤ earth3Index o ∧ earth3Index o ≤ 100 := by
  have hf := h o.finance (by simp [metricsList])
  have ha := h o.aiGovernance (by simp [metricsList])
  have hc := h o.climate (by simp [metricsList])
  have he := h o.equity (by simp [metricsList])
  have hs := h o.sustainability (by simp [metricsList])
  rw [earth3Index_mean]
  set s := (o.finance + o.aiGovernance + o.climate + o.equity + o.sustainability) / 5 with hsdef
  have hs0 : 0 ≤ 10 * s := by rw [hsdef]; linarith [hf.1, ha.1, hc.1, he.1, hs.1]
  have hs1 : 10 * s ≤ ((1000 : ℤ) : ℚ) := by
    push_cast
    rw [hsdef]
    linarith [hf.2, ha.2, hc.2, he.2, hs.2]
  have hge : (0 : ℤ) ≤ rhe (10 * s) := rhe_nonneg hs0
  have hle : rhe (10 * s) ≤ (1000 : ℤ) := rhe_le_of_le hs1
  rw [round1]
  constructor
  · exact div_nonneg (by exact_mod_cast hge) (by norm_num)
  · rw [div_le_iff₀ (by norm_num : (0:ℚ) < 10)]
    have hcast : ((rhe (10 * s) : ℤ) : ℚ) ≤ ((1000 : ℤ) : ℚ) := by exact_mod_cast hle
    calc ((rhe (10 * s) : ℤ) : ℚ) ≤ ((1000 : ℤ) : ℚ) := hcast
    _ = 100 * 10 := by norm_num

/-- C9 witness: the bounds theorem applied to GreenEnergy Ltd, whose five
metrics are all inside `[0, 100]`. -/
theorem compute_index_bounds_witness :
    0 ≤ earth3Index greenEnergy ∧ earth3Index greenEnergy ≤ 100 :=
  compute_index_bounds greenEnergy (by
    intro m hm
    simp [metricsList, greenEnergy] at hm
    rcases hm with rfl | rfl | rfl | rfl | rfl <;> norm_num)

/-- C10: the top-line KPI is the mean of the six per-entity indices — each
already rounded to one decimal — rounded once more to one decimal, giving
70.9 on the fixed catalog; it is not the single rounding of the mean of the
thirty raw metric values, and the two computations differ on a six-entity
catalog because of the intermediate per-entity rounding. -/
theorem global_index_double_rounding :
    global_index ORGS_DF = round1 ((ORGS_DF.map earth3Index).sum / 6) ∧
    global_index ORGS_DF = 70.9 ∧
    gapCatalog.length = 6 ∧
    global_index gapCatalog ≠ rawMetricMean gapCatalog := by
  have hA : earth3Index gapOrgA = 0.2 := by
    rw [earth3Index_mean, round1_eq_of_half _ 1 (by norm_num [gapOrgA])]
    norm_num
  have hB : earth3Index gapOrgB = 0.8 := by
    rw [earth3Index_mean, round1_eq_of_half _ 7 (by norm_num [gapOrgB])]
    norm_num
  refine ⟨?_, ?_, rfl, ?_⟩
  · rw [global_index]
    congr 1
  · rw [global_index]
    rw [round1_eq_of_tenths _ 709 (by
      simp [ORGS_DF, earth3Index_unilever, earth3Index_acmeMotors, earth3Index_nipponAuto,
        earth3Index_greenEnergy, earth3Index_continentalFoods, earth3Index_globalBank]
      norm_num)]
    norm_num
  · have hg : global_index gapCatalog = 0.5 := by
      rw [global_index]
      rw [round1_eq_of_tenths _ 5 (by simp [gapCatalog, hA, hB]; norm_num)]
      norm_num
    have hr : rawMetricMean gapCatalog = 0.4 := by
      rw [rawMetricMean]
      rw [round1_eq_of_half _ 4 (by
        simp [gapCatalog, gapOrgA, gapOrgB, metricsList]
        norm_num)]
      norm_num
    rw [hg, hr]
    norm_num
